import Mathlib

/-!
Verification of the statement builder and executor of the repository
(class `MySQL` of `src/mysql.ts`).

Shallow embedding of `src/mysql.ts` (class `MySQL`) and the relevant parts of
its collaborator (the `mysql` driver's `escapeId`).  Builder functions are
translated as pure Lean functions; the executor's `transaction` method is
translated as a pure function over an explicit driver-behaviour record, with
the connection-release count made explicit.
-/

namespace GibmeMysql

/-- A bound SQL parameter value (`string | number | boolean` in the source). -/
inductive SqlValue where
  | s (v : String)
  | n (v : Int)
  | b (v : Bool)
deriving DecidableEq, Repr

/-- A prepared statement: SQL text plus ordered bound parameters
(interface `Query` of `src/types.ts`; `values` defaults to `[]`). -/
structure Query where
  query : String
  values : List SqlValue
deriving DecidableEq, Repr

/-- JS `String.prototype.trim` (used by the source via `.trim()`), modelled
character-wise: strip leading and trailing whitespace. -/
def trim (s : String) : String :=
  ⟨((s.data.dropWhile Char.isWhitespace).reverse.dropWhile Char.isWhitespace).reverse⟩

/-- JS `String.prototype.toUpperCase` (used by the source via
`column.type.toUpperCase()`), modelled character-wise for the ASCII type
names the source deals in. -/
def toUpperCase (s : String) : String :=
  ⟨s.data.map Char.toUpper⟩

/-- The per-character action of the `mysql` driver's `escapeId`: it first
replaces every backtick with two backticks, then every dot with a
backtick-quoted dot; as the first pass introduces no dots and the second
touches only dots, this equals a single character-wise pass. -/
def escapeIdChar (c : Char) : String :=
  if c = '`' then "``" else if c = '.' then "`.`" else String.singleton c

/-- The `mysql` driver's identifier-escaping function `escapeId` (for the
unqualified/`forbidQualified = false` case actually used here): wrap in
backticks, doubling embedded backticks and re-quoting around dots. -/
def escapeId (s : String) : String :=
  "`" ++ String.join (s.data.map escapeIdChar) ++ "`"

/-- Helper `toPlaceholders` from `prepareMultiInsert`: one `?` per element, comma-joined. -/
def toPlaceholders (arr : List α) : String :=
  String.intercalate "," (arr.map (fun _ => "?"))

/-- Method `prepareMultiInsert (table, columns, values)` of `src/mysql.ts`.
Thrown `Error`s become `Except.error` carrying the message. -/
def prepareMultiInsert (table : String) (columns : List String)
    (values : List (List SqlValue)) : Except String Query :=
  if values.length = 0 then
    .error "Must supply values"
  else if columns.length ≠ 0 ∧ values.any (fun v => v.length ≠ columns.length) then
    .error "Column count does not match values count"
  else
    let cols := if columns.length ≠ 0 then
        " (" ++ String.intercalate "," (columns.map (fun e => escapeId e)) ++ ")"
      else ""
    let placeholder := if columns.length ≠ 0 then
        "(" ++ toPlaceholders columns ++ ")"
      else "(" ++ toPlaceholders (values.headD []) ++ ")"
    let placeholders := values.map (fun _ => placeholder)
    let parameters := values.flatten
    .ok { query := trim ("INSERT INTO " ++ escapeId table ++ cols ++ " VALUES " ++
                    String.intercalate "," placeholders),
          values := parameters }

/-- Method `prepareMultiUpdate (table, primaryKey, columns, values)` of `src/mysql.ts`:
validates `columns` and `primaryKey` non-empty, builds the multi-insert, then
appends `ON DUPLICATE KEY UPDATE` assignments for every column not in the
primary key, in `columns` order. -/
def prepareMultiUpdate (table : String) (primaryKey : List String)
    (columns : List String) (values : List (List SqlValue)) : Except String Query :=
  if columns.length = 0 then
    .error "Must specify columns for multi-update"
  else if primaryKey.length = 0 then
    .error "Must specify primary key column(s) for multi-update"
  else
    match prepareMultiInsert table columns values with
    | .error e => .error e
    | .ok q =>
      let updates := (columns.filter (fun column => ¬ primaryKey.contains column)).map
        (fun column => escapeId column ++ " = VALUES(" ++ escapeId column ++ ")")
      .ok { q with
            query := q.query ++ " ON DUPLICATE KEY UPDATE " ++ String.intercalate "," updates }

/-- A foreign-key reference of a column (interface `ForeignKey` of `src/types.ts`);
the `ON DELETE` / `ON UPDATE` actions are the enum's SQL strings. -/
structure ForeignKey where
  table : String
  column : String
  onUpdate : Option String
  onDelete : Option String
deriving DecidableEq, Repr

/-- A column specification (interface `Column` of `src/types.ts`); optional
flags model `undefined` as `false` / `none`. -/
structure Column where
  name : String
  type : String
  nullable : Bool
  foreignKey : Option ForeignKey
  unique : Bool
  default : Option SqlValue
deriving DecidableEq, Repr

/-- Helper `sqlToQuery` inside `prepareCreateTable`: trim the SQL text. -/
def sqlToQuery (sql : String) (values : List SqlValue) : Query :=
  { query := trim sql, values := values }

/-- One rendered column definition of `prepareCreateTable`:
`format('%s %s %s %s', escapeId(name), TYPE, NOT NULL|NULL, DEFAULT ?).trim()`. -/
def columnDef (column : Column) : String :=
  trim (escapeId column.name ++ " " ++ toUpperCase column.type ++ " " ++
    (if ¬ column.nullable then "NOT NULL" else "NULL") ++ " " ++
    (if column.default.isSome then "DEFAULT ?" else ""))

/-- One `CREATE UNIQUE INDEX` statement text of `prepareCreateTable`;
`name` is the already-escaped table name. -/
def uniqueIndexSql (name : String) (column : Column) : String :=
  "CREATE UNIQUE INDEX IF NOT EXISTS " ++ name ++ "_unique_" ++ escapeId column.name ++
    " ON " ++ name ++ " (" ++ escapeId (trim column.name) ++ ")"

/-- One foreign-key constraint fragment of `prepareCreateTable`
(`constraint_fmt` plus the optional actions, trimmed); `name` is the
already-escaped table name.  Note the source passes `field.foreignKey.table`
and `field.foreignKey.column` through raw, without `escapeId`. -/
def foreignKeyConstraint (name : String) (field : Column) (fk : ForeignKey) : String :=
  trim ((", CONSTRAINT " ++ name ++ "_" ++ escapeId field.name ++ "_foreign_key FOREIGN KEY (" ++
    escapeId field.name ++ ") REFERENCES " ++ fk.table ++ " (" ++ fk.column ++ ")") ++
    (match fk.onDelete with | some a => " ON DELETE " ++ a | none => "") ++
    (match fk.onUpdate with | some a => " ON UPDATE " ++ a | none => ""))

/-- Method `prepareCreateTable (name, fields, primaryKey, tableOptions)` of
`src/mysql.ts`: the `CREATE TABLE` statement (column defaults as bound
parameters, in column order) followed by one `CREATE UNIQUE INDEX` statement
per unique-flagged column.  The source performs no validation and never
throws. -/
def prepareCreateTable (name : String) (fields : List Column)
    (primaryKey : List String) (tableOptions : String) : List Query :=
  let name := escapeId name
  let primaryKey := primaryKey.map (fun column => escapeId column)
  let values := fields.filterMap (fun column => column.default)
  let _fields := fields.map columnDef
  let _unique := (fields.filter (fun elem => elem.unique)).map
    (fun column => uniqueIndexSql name column)
  let _constraints := fields.filterMap
    (fun field => field.foreignKey.map (fun fk => foreignKeyConstraint name field fk))
  let sql := "CREATE TABLE IF NOT EXISTS " ++ name ++ " (" ++
    String.intercalate "," _fields ++ ", PRIMARY KEY (" ++
    String.intercalate "," primaryKey ++ ")" ++ String.intercalate "," _constraints ++
    ") " ++ tableOptions ++ ";"
  sqlToQuery sql values :: _unique.map (fun sql => sqlToQuery sql [])

/-! ## Constructor configuration defaults

The constructor mutates its `config`:
`this.config.rejectUnauthorized ??= false;` then
`this.config.ssl ||= { rejectUnauthorized: this.config.rejectUnauthorized };`.
We model the fields the claims are about: the optional top-level
`rejectUnauthorized` flag and the optional `ssl` object. -/

/-- The `ssl` sub-object the constructor may install. -/
structure SslConfig where
  rejectUnauthorized : Bool
deriving DecidableEq, Repr

/-- The caller-supplied pool configuration (fields relevant to TLS
verification); `none` models an absent (`undefined`) field. -/
structure PoolConfig where
  rejectUnauthorized : Option Bool
  ssl : Option SslConfig
deriving DecidableEq, Repr

/-- The constructor's defaulting of the TLS-verification configuration:
`rejectUnauthorized ??= false` (nullish-coalescing assignment) followed by
`ssl ||= { rejectUnauthorized }` (assign when falsy/absent). -/
def applyConfigDefaults (config : PoolConfig) : PoolConfig :=
  let ru := config.rejectUnauthorized.getD false
  { rejectUnauthorized := some ru
    ssl := match config.ssl with
           | some s => some s
           | none => some ⟨ru⟩ }

/-! ## The executor: `transaction`

`transaction` acquires a connection, and inside
`try { begin; run each query; commit; return results }
 catch (e) { await rollback; throw e } finally { release }`.
We model the driver's behaviour (which of the awaited operations succeed or
fail, and with what) as an explicit record, and make the number of
`connection.release()` calls an explicit component of the outcome. -/

/-- The observable behaviour of the pool/connection for one `transaction`
call: the outcome of connection acquisition, `beginTransaction`, each
positional query execution, `commitTransaction` and `rollbackTransaction`.
`E` is the driver's error type, `R` a single query's result. -/
structure Driver (E R : Type) where
  connection : Except E Unit
  beginTransaction : Except E Unit
  query : Nat → Query → Except E R
  commitTransaction : Except E Unit
  rollbackTransaction : Except E Unit

/-- The outcome of a `transaction` call: the value returned or error thrown,
plus how many times `connection.release()` ran. -/
structure TxOutcome (E R : Type) where
  result : Except E (List R)
  releases : Nat

/-- The `for (const query of queries) results.push(await this.query(...))`
loop: run queries in order from position `i`, stopping at the first error. -/
def runQueries (d : Driver E R) (i : Nat) : List Query → Except E (List R)
  | [] => .ok []
  | q :: qs =>
    match d.query i q with
    | .error e => .error e
    | .ok r =>
      match runQueries d (i + 1) qs with
      | .error e => .error e
      | .ok rs => .ok (r :: rs)

/-- The `try` body of `transaction`: begin, run all queries, commit. -/
def transactionBody (d : Driver E R) (queries : List Query) : Except E (List R) :=
  match d.beginTransaction with
  | .error e => .error e
  | .ok _ =>
    match runQueries d 0 queries with
    | .error e => .error e
    | .ok rs =>
      match d.commitTransaction with
      | .error e => .error e
      | .ok _ => .ok rs

/-- Method `transaction (queries)` of `src/mysql.ts`.  If acquiring the connection
fails, the error propagates before the `try` (no release).  Otherwise the
body runs; on a body error the `catch` awaits `rollbackTransaction` — a
rollback rejection replaces the caught error, a rollback success lets the
original be re-thrown — and the `finally` releases the connection exactly
once on every path. -/
def transaction (d : Driver E R) (queries : List Query) : TxOutcome E R :=
  match d.connection with
  | .error e => ⟨.error e, 0⟩
  | .ok _ =>
    let result : Except E (List R) :=
      match transactionBody d queries with
      | .ok rs => .ok rs
      | .error e =>
        match d.rollbackTransaction with
        | .ok _ => .error e
        | .error r => .error r
    ⟨result, 1⟩

/-- Concrete driver behaviour used to exhibit the rollback-failure path of
`transaction`: the single statement fails with error `7`, rollback fails
with error `3`. -/
def rollbackFailDriver : Driver Nat Nat :=
  ⟨.ok (), .ok (), fun _ _ => .error 7, .ok (), .error 3⟩

/-- Concrete driver behaviour in which the statement fails with `7` and the
rollback succeeds. -/
def stmtFailDriver : Driver Nat Nat :=
  ⟨.ok (), .ok (), fun _ _ => .error 7, .ok (), .ok ()⟩

/-- Concrete driver behaviour in which every operation succeeds. -/
def allOkDriver : Driver Nat Nat :=
  ⟨.ok (), .ok (), fun _ _ => .ok 0, .ok (), .ok ()⟩

/-! Theorems. -/

/-- Helper: on a non-empty column list and non-empty, length-consistent row
set, `prepareMultiInsert` succeeds with the canonical INSERT text (the
VALUES clause is `rows.length` copies of one placeholder group of
`columns.length` question marks) and the row-major flattening of the rows
as parameters. -/
theorem prepareMultiInsert_ok (table : String) (columns : List String)
    (values : List (List SqlValue)) (hc : columns ≠ []) (hv : values ≠ [])
    (hrow : ∀ v ∈ values, v.length = columns.length) :
    prepareMultiInsert table columns values =
      .ok { query := trim ("INSERT INTO " ++ escapeId table ++
              (" (" ++ String.intercalate "," (columns.map (fun e => escapeId e)) ++ ")") ++
              " VALUES " ++
              String.intercalate "," (List.replicate values.length
                ("(" ++ String.intercalate "," (List.replicate columns.length "?") ++ ")"))),
            values := values.flatten } := by
  have h0 : ¬ values.length = 0 := by simpa [List.length_eq_zero] using hv
  have hcl : columns.length ≠ 0 := by simpa [List.length_eq_zero] using hc
  have h1 : values.any (fun v => v.length ≠ columns.length) = false := by
    rw [List.any_eq_false]
    intro v hvmem
    simp [hrow v hvmem]
  have h2 : ¬ (columns.length ≠ 0 ∧
      (values.any (fun v => v.length ≠ columns.length)) = true) := by
    rw [h1]; simp
  have hmapc : toPlaceholders columns =
      String.intercalate "," (List.replicate columns.length "?") := by
    simp [toPlaceholders, List.map_const']
  have hmapv : values.map
        (fun _ => ("(" ++ String.intercalate "," (List.replicate columns.length "?") ++ ")")) =
      List.replicate values.length
        ("(" ++ String.intercalate "," (List.replicate columns.length "?") ++ ")") := by
    simp [List.map_const']
  simp only [prepareMultiInsert, if_neg h0, if_neg h2, if_pos hcl, hmapc, hmapv]

/-- Helper: flattening a list of rows that all have the column count as
length yields `rows.length * columns.length` values. -/
theorem flatten_len (columns : List String) (values : List (List SqlValue))
    (hrow : ∀ v ∈ values, v.length = columns.length) :
    (values.flatten).length = values.length * columns.length := by
  rw [List.length_flatten]
  have h : values.map List.length = List.replicate values.length columns.length := by
    rw [List.eq_replicate_iff]
    refine ⟨by simp, ?_⟩
    intro b hb
    obtain ⟨v, hvmem, rfl⟩ := List.mem_map.mp hb
    exact hrow v hvmem
  rw [h, List.sum_replicate, smul_eq_mul]

/-- Claim C1: for every non-empty column list and every non-empty row set in
which every row's length equals the column count, `prepareMultiInsert`
returns a single statement whose SQL text contains exactly `rows.length`
placeholder groups, each with `columns.length` question-mark placeholders,
and whose bound-parameter sequence is the row-major flattening of the rows,
of length `rows.length * columns.length`. -/
theorem prepareMultiInsert_rowMajor (table : String) (columns : List String)
    (values : List (List SqlValue)) (hc : columns ≠ []) (hv : values ≠ [])
    (hrow : ∀ v ∈ values, v.length = columns.length) :
    prepareMultiInsert table columns values =
      .ok { query := trim ("INSERT INTO " ++ escapeId table ++
              (" (" ++ String.intercalate "," (columns.map (fun e => escapeId e)) ++ ")") ++
              " VALUES " ++
              String.intercalate "," (List.replicate values.length
                ("(" ++ String.intercalate "," (List.replicate columns.length "?") ++ ")"))),
            values := values.flatten } ∧
    (values.flatten).length = values.length * columns.length :=
  ⟨prepareMultiInsert_ok table columns values hc hv hrow, flatten_len columns values hrow⟩

/-- Witness for claim C1 at table `t`, columns `[c1, c2]` and rows
`[[a, 1], [b, 2]]`. -/
theorem prepareMultiInsert_rowMajor_witness :
    prepareMultiInsert "t" ["c1", "c2"] [[.s "a", .n 1], [.s "b", .n 2]] =
      .ok ⟨"INSERT INTO `t` (`c1`,`c2`) VALUES (?,?),(?,?)",
           [.s "a", .n 1, .s "b", .n 2]⟩ ∧
    ([[SqlValue.s "a", SqlValue.n 1], [SqlValue.s "b", SqlValue.n 2]].flatten).length = 2 * 2 := by
  have h := prepareMultiInsert_rowMajor "t" ["c1", "c2"]
    [[.s "a", .n 1], [.s "b", .n 2]] (by decide) (by decide) (by decide)
  exact ⟨h.1, h.2⟩

/-- Claim C2: for inputs accepted by `prepareMultiUpdate` (non-empty
`primaryKey` and `columns`, and a row set on which `prepareMultiInsert`
succeeds), its statement is the multi-insert statement with
` ON DUPLICATE KEY UPDATE ` appended, followed by one assignment
`col = VALUES(col)` for exactly those members of `columns` that are not in
`primaryKey`, in `columns` order; the bound parameters are unchanged. -/
theorem prepareMultiUpdate_clause (table : String) (primaryKey columns : List String)
    (values : List (List SqlValue)) (q : Query)
    (hpk : primaryKey ≠ []) (hc : columns ≠ [])
    (hins : prepareMultiInsert table columns values = .ok q) :
    prepareMultiUpdate table primaryKey columns values =
      .ok { query := q.query ++ " ON DUPLICATE KEY UPDATE " ++
              String.intercalate ","
                ((columns.filter (fun column => column ∉ primaryKey)).map
                  (fun column => escapeId column ++ " = VALUES(" ++ escapeId column ++ ")")),
            values := q.values } := by
  have hcl : ¬ columns.length = 0 := by simpa [List.length_eq_zero] using hc
  have hpkl : ¬ primaryKey.length = 0 := by simpa [List.length_eq_zero] using hpk
  have hfilter : columns.filter (fun column => ¬ primaryKey.contains column) =
      columns.filter (fun column => column ∉ primaryKey) := by
    apply List.filter_congr
    intro c _
    simp [List.elem_iff]
  simp only [prepareMultiUpdate, if_neg hcl, if_neg hpkl, hins, hfilter]

/-- Witness for claim C2 at table `t`, primary key `[c1]`, columns
`[c1, c2]` and the single row `[a, 9]`. -/
theorem prepareMultiUpdate_clause_witness :
    prepareMultiUpdate "t" ["c1"] ["c1", "c2"] [[.s "a", .n 9]] =
      .ok ⟨"INSERT INTO `t` (`c1`,`c2`) VALUES (?,?) ON DUPLICATE KEY UPDATE `c2` = VALUES(`c2`)",
           [.s "a", .n 9]⟩ := by
  have h := prepareMultiUpdate_clause "t" ["c1"] ["c1", "c2"] [[.s "a", .n 9]]
    ⟨"INSERT INTO `t` (`c1`,`c2`) VALUES (?,?)", [.s "a", .n 9]⟩
    (by decide) (by decide) rfl
  exact h

/-- Claim C7: `prepareMultiInsert` fails (returning no statement) with
`Must supply values` whenever the row set is empty, and with
`Column count does not match values count` whenever the column list is
non-empty and some row's length differs from the column count. -/
theorem prepareMultiInsert_validation (table : String) (columns : List String)
    (values : List (List SqlValue)) :
    (values = [] → prepareMultiInsert table columns values = .error "Must supply values") ∧
    (columns ≠ [] → (∃ v ∈ values, v.length ≠ columns.length) →
      prepareMultiInsert table columns values =
        .error "Column count does not match values count") := by
  constructor
  · rintro rfl
    rfl
  · rintro hc ⟨v, hvmem, hvlen⟩
    have h0 : ¬ values.length = 0 := by
      simp only [List.length_eq_zero]
      rintro rfl
      exact (List.not_mem_nil v) hvmem
    have hcl : columns.length ≠ 0 := by simpa [List.length_eq_zero] using hc
    have h1 : (values.any (fun v => v.length ≠ columns.length)) = true := by
      rw [List.any_eq_true]
      exact ⟨v, hvmem, by simp [hvlen]⟩
    have h2 : columns.length ≠ 0 ∧
        (values.any (fun v => v.length ≠ columns.length)) = true := ⟨hcl, h1⟩
    simp only [prepareMultiInsert, if_neg h0, if_pos h2]

/-- Witness for claim C7: an empty row set, and a one-column list against a
two-value row. -/
theorem prepareMultiInsert_validation_witness :
    prepareMultiInsert "t" ["c1"] [] = .error "Must supply values" ∧
    prepareMultiInsert "t" ["c1"] [[.n 1, .n 2]] =
      .error "Column count does not match values count" :=
  ⟨(prepareMultiInsert_validation "t" ["c1"] []).1 rfl,
   (prepareMultiInsert_validation "t" ["c1"] [[.n 1, .n 2]]).2 (by decide)
     ⟨[.n 1, .n 2], by simp, by decide⟩⟩

/-- Claim C10: when every member of `columns` is also in `primaryKey` (with
non-empty columns and primary key and well-formed rows), `prepareMultiUpdate`
raises no error and its SQL text ends with the literal suffix
` ON DUPLICATE KEY UPDATE ` followed by an empty assignment list. -/
theorem prepareMultiUpdate_emptyAssignments (table : String)
    (primaryKey columns : List String) (values : List (List SqlValue))
    (hc : columns ≠ []) (hpk : primaryKey ≠ []) (hv : values ≠ [])
    (hrow : ∀ v ∈ values, v.length = columns.length)
    (hsub : ∀ c ∈ columns, c ∈ primaryKey) :
    ∃ q, prepareMultiUpdate table primaryKey columns values = .ok q ∧
      ∃ p, q.query = p ++ " ON DUPLICATE KEY UPDATE " := by
  have hins := prepareMultiInsert_ok table columns values hc hv hrow
  have hcl : ¬ columns.length = 0 := by simpa [List.length_eq_zero] using hc
  have hpkl : ¬ primaryKey.length = 0 := by simpa [List.length_eq_zero] using hpk
  have hfilter : columns.filter (fun column => ¬ primaryKey.contains column) = [] := by
    rw [List.filter_eq_nil_iff]
    intro c hcmem
    simp [List.elem_iff]
    exact hsub c hcmem
  refine ⟨⟨trim ("INSERT INTO " ++ escapeId table ++
      (" (" ++ String.intercalate "," (columns.map (fun e => escapeId e)) ++ ")") ++
      " VALUES " ++
      String.intercalate "," (List.replicate values.length
        ("(" ++ String.intercalate "," (List.replicate columns.length "?") ++ ")"))) ++
      " ON DUPLICATE KEY UPDATE ", values.flatten⟩, ?_, ⟨_, rfl⟩⟩
  simp only [prepareMultiUpdate, if_neg hcl, if_neg hpkl, hins, hfilter, List.map_nil]
  rw [show String.intercalate "," ([] : List String) = "" from rfl, String.append_empty]

/-- Witness for claim C10 at table `t`, primary key `[c1, c2]`, columns
`[c1]` and a single one-value row. -/
theorem prepareMultiUpdate_emptyAssignments_witness :
    ∃ q, prepareMultiUpdate "t" ["c1", "c2"] ["c1"] [[.n 1]] = .ok q ∧
      ∃ p, q.query = p ++ " ON DUPLICATE KEY UPDATE " :=
  prepareMultiUpdate_emptyAssignments "t" ["c1", "c2"] ["c1"] [[.n 1]]
    (by decide) (by decide) (by decide) (by decide) (by decide)

/-- Claim C8: for every field list, `prepareCreateTable` returns exactly
`1 + u` statements where `u` counts the unique-flagged columns: a head
`CREATE TABLE` statement carrying the column defaults as bound parameters in
column order, followed by exactly one parameterless `CREATE UNIQUE INDEX`
statement per unique-flagged column (so zero when none is flagged). -/
theorem prepareCreateTable_statements (name : String) (fields : List Column)
    (primaryKey : List String) (tableOptions : String) :
    (prepareCreateTable name fields primaryKey tableOptions).length =
        1 + (fields.filter (fun field => field.unique)).length ∧
    ∃ ct idx, prepareCreateTable name fields primaryKey tableOptions = ct :: idx ∧
      ct.values = fields.filterMap (fun field => field.default) ∧
      (∃ rest, ct.query = trim ("CREATE TABLE IF NOT EXISTS " ++ rest)) ∧
      idx = (fields.filter (fun field => field.unique)).map
          (fun column => sqlToQuery (uniqueIndexSql (escapeId name) column) []) ∧
      ∀ q ∈ idx, q.values = [] ∧
        ∃ rest, q.query = trim ("CREATE UNIQUE INDEX IF NOT EXISTS " ++ rest) := by
  constructor
  · simp [prepareCreateTable]
    omega
  refine ⟨_, _, rfl, rfl, ?_, by rw [List.map_map]; rfl, ?_⟩
  · refine ⟨escapeId name ++ (" (" ++ (String.intercalate "," (fields.map columnDef) ++
      (", PRIMARY KEY (" ++ (String.intercalate ","
          (primaryKey.map (fun column => escapeId column)) ++
        (")" ++ (String.intercalate "," (fields.filterMap (fun field =>
            field.foreignKey.map (fun fk => foreignKeyConstraint (escapeId name) field fk))) ++
          (") " ++ (tableOptions ++ ";")))))))), ?_⟩
    simp only [sqlToQuery]
    congr 1
    simp only [String.append_assoc]
  · intro q hq
    simp only [List.mem_map] at hq
    obtain ⟨sql, ⟨column, _, rfl⟩, rfl⟩ := hq
    refine ⟨rfl, escapeId name ++ ("_unique_" ++ (escapeId column.name ++
      (" ON " ++ (escapeId name ++ (" (" ++ (escapeId (trim column.name) ++ ")")))))), ?_⟩
    simp only [sqlToQuery, uniqueIndexSql]
    congr 1
    simp only [String.append_assoc]

/-- Counterexample to claim C6: with an empty `primaryKey`,
`prepareCreateTable` does not fail; it returns a `CREATE TABLE` statement
whose text contains an empty `PRIMARY KEY ()` column list. -/
theorem prepareCreateTable_emptyPK_counterexample :
    prepareCreateTable "t" [⟨"c1", "varchar(255)", false, none, false, none⟩] [] "OPTS" =
      [⟨"CREATE TABLE IF NOT EXISTS `t` (`c1` VARCHAR(255) NOT NULL, PRIMARY KEY ()) OPTS;",
        []⟩] := rfl

/-- Claim C6 as amended: `prepareCreateTable` performs no primary-key
validation; with an empty `primaryKey` it still returns its statements (one
per unique-flagged column after the head), the `CREATE TABLE` text carrying
an empty rendered primary-key list between the `PRIMARY KEY (` and `)`
delimiters. -/
theorem prepareCreateTable_emptyPK_total (name : String) (fields : List Column)
    (tableOptions : String) :
    ∃ ct idx, prepareCreateTable name fields [] tableOptions = ct :: idx ∧
      idx.length = (fields.filter (fun field => field.unique)).length ∧
      ∃ a b, ct.query = trim (a ++ ", PRIMARY KEY (" ++
        String.intercalate "," (([] : List String).map (fun column => escapeId column)) ++
        ")" ++ b) := by
  refine ⟨_, _, rfl, by simp, ?_⟩
  refine ⟨"CREATE TABLE IF NOT EXISTS " ++ escapeId name ++ " (" ++
      String.intercalate "," (fields.map columnDef),
    String.intercalate "," (fields.filterMap (fun field =>
        field.foreignKey.map (fun fk => foreignKeyConstraint (escapeId name) field fk))) ++
      ") " ++ tableOptions ++ ";", ?_⟩
  simp only [sqlToQuery]
  congr 1
  simp only [String.append_assoc]

set_option maxRecDepth 4096 in
/-- Claim C5, evaluated at a failing input: the foreign-key target table
`ft` and target column `fc` appear raw in the generated SQL
(` REFERENCES ft (fc)`), and the escaped forms produced by `escapeId` do not
appear, although every other identifier is escaped. -/
theorem prepareCreateTable_foreignKey_unescaped :
    prepareCreateTable "t"
        [⟨"c", "int", false, some ⟨"ft", "fc", none, none⟩, false, none⟩] ["id"] "OPTS" =
      [⟨"CREATE TABLE IF NOT EXISTS `t` (`c` INT NOT NULL, PRIMARY KEY (`id`), CONSTRAINT `t`_`c`_foreign_key FOREIGN KEY (`c`) REFERENCES ft (fc)) OPTS;",
        []⟩] ∧
    escapeId "ft" = "`ft`" ∧ escapeId "fc" = "`fc`" ∧
    ¬ List.IsInfix "`ft`".data
        "CREATE TABLE IF NOT EXISTS `t` (`c` INT NOT NULL, PRIMARY KEY (`id`), CONSTRAINT `t`_`c`_foreign_key FOREIGN KEY (`c`) REFERENCES ft (fc)) OPTS;".data ∧
    List.IsInfix " REFERENCES ft (fc)".data
        "CREATE TABLE IF NOT EXISTS `t` (`c` INT NOT NULL, PRIMARY KEY (`id`), CONSTRAINT `t`_`c`_foreign_key FOREIGN KEY (`c`) REFERENCES ft (fc)) OPTS;".data := by
  refine ⟨rfl, rfl, rfl, by decide, by decide⟩

/-- Counterexample to claim C4: when the caller leaves the TLS verification
flag unset, the constructor defaults `rejectUnauthorized` to `false`
(verification off), not `true`. -/
theorem constructor_tls_default_counterexample :
    (applyConfigDefaults ⟨none, none⟩).rejectUnauthorized = some false ∧
    (applyConfigDefaults ⟨none, none⟩).ssl = some ⟨false⟩ ∧
    (some false : Option Bool) ≠ some true :=
  ⟨rfl, rfl, by decide⟩

/-- Claim C4 as amended: the constructor defaults the TLS verification flag
to `false` (certificates not verified) when the caller does not set it;
verification happens only when explicitly enabled.  An explicitly set flag
is preserved, and an explicitly supplied `ssl` object is kept while an
absent one is replaced by one mirroring the flag. -/
theorem constructor_tls_defaults (config : PoolConfig) :
    (applyConfigDefaults config).rejectUnauthorized =
        some (config.rejectUnauthorized.getD false) ∧
    (config.ssl = none →
      (applyConfigDefaults config).ssl = some ⟨config.rejectUnauthorized.getD false⟩) ∧
    (∀ s, config.ssl = some s → (applyConfigDefaults config).ssl = some s) := by
  refine ⟨rfl, ?_, ?_⟩
  · intro h
    simp [applyConfigDefaults, h]
  · intro s h
    simp [applyConfigDefaults, h]

/-- Witness for the amended claim C4 at a configuration that explicitly
enables verification and supplies no `ssl` object. -/
theorem constructor_tls_defaults_witness :
    (applyConfigDefaults ⟨some true, none⟩).rejectUnauthorized = some true ∧
    (applyConfigDefaults ⟨some true, none⟩).ssl = some ⟨true⟩ := by
  have h := constructor_tls_defaults ⟨some true, none⟩
  exact ⟨h.1, h.2.1 rfl⟩

/-- Counterexample to claim C3: when a statement fails with error `7` and
the rollback fails with error `3`, the call raises only the rollback error
`3`; the original error `7` is not surfaced at all. -/
theorem transaction_rollbackFailure_counterexample :
    rollbackFailDriver.query 0 ⟨"A", []⟩ = .error 7 ∧
    rollbackFailDriver.rollbackTransaction = .error 3 ∧
    (transaction rollbackFailDriver [⟨"A", []⟩]).result = .error 3 ∧
    (3 : Nat) ≠ 7 :=
  ⟨rfl, rfl, rfl, by decide⟩

/-- Claim C3 as amended: if a statement of the batch fails with driver error
`e` and the rollback succeeds, `transaction` raises `e` itself; if the
rollback also fails with `r`, then `r` alone is raised and the original
error is discarded; in every failure case no results from the batch are
returned. -/
theorem transaction_error_propagation {E R : Type} (d : Driver E R)
    (queries : List Query) (e : E)
    (hconn : d.connection = .ok ())
    (hbegin : d.beginTransaction = .ok ())
    (hfail : runQueries d 0 queries = .error e) :
    (d.rollbackTransaction = .ok () → (transaction d queries).result = .error e) ∧
    (∀ r, d.rollbackTransaction = .error r →
      (transaction d queries).result = .error r) ∧
    ∀ rs, (transaction d queries).result ≠ .ok rs := by
  have hbody : transactionBody d queries = .error e := by
    simp only [transactionBody, hbegin, hfail]
  refine ⟨?_, ?_, ?_⟩
  · intro h
    simp only [transaction, hconn, hbody, h]
  · intro r h
    simp only [transaction, hconn, hbody, h]
  · intro rs
    cases hrb : d.rollbackTransaction with
    | ok u => simp only [transaction, hconn, hbody, hrb]; simp
    | error r => simp only [transaction, hconn, hbody, hrb]; simp

/-- Witness for the amended claim C3 with a driver whose statement fails
with `7` and whose rollback succeeds. -/
theorem transaction_error_propagation_witness :
    (transaction stmtFailDriver [⟨"A", []⟩]).result = .error 7 ∧
    ∀ rs, (transaction stmtFailDriver [⟨"A", []⟩]).result ≠ .ok rs := by
  have h := transaction_error_propagation stmtFailDriver [⟨"A", []⟩] 7 rfl rfl rfl
  exact ⟨h.1 rfl, h.2.2⟩

/-- Claim C9: every `transaction` call that acquires its connection releases
it exactly once before completing, for every driver behaviour — commit,
statement failure, commit failure or rollback failure alike. -/
theorem transaction_releases_connection {E R : Type} (d : Driver E R)
    (queries : List Query) (hconn : d.connection = .ok ()) :
    (transaction d queries).releases = 1 := by
  simp only [transaction, hconn]

/-- Witness for claim C9 with an all-succeeding driver. -/
theorem transaction_releases_connection_witness :
    (transaction allOkDriver [⟨"A", []⟩]).releases = 1 :=
  transaction_releases_connection allOkDriver [⟨"A", []⟩] rfl

end GibmeMysql
